import Mathlib

/-!
Verification model of the Consensus AI deliberation pipeline (`app.py`).

The script coordinates several text-completion agents: each configured agent
produces an initial analysis; in deep mode each author's answer is reviewed by
the next agent in round-robin order, authors revise on the critique, and one
surviving agent synthesizes a final consensus report.  Per-agent call failures
are caught and encoded as marker strings ("❌ 오류 발생: ...", "❌ 검토 오류: ...")
and filtered out by substring checks before later stages.

This file gives a shallow embedding of that pipeline.  An agent's external
behavior is a function from (agent, prompt) to a call result: either a raised
exception carrying a message, or a returned value which — as in Python — may be
an actual string or `None` (modelled by `Option String`).  Dictionaries keyed
by agent identity are modelled as association lists in insertion order, which
matches Python dict iteration order; the keys of the real dictionaries are
distinct, so theorems that need key uniqueness take a `Nodup` hypothesis.
-/

set_option autoImplicit false

namespace ConsensusAI

/-- Agent identities are the keys of `AI_CONFIG` ("openai", "gemini", ...). -/
abbrev AgentId := String

/-- Outcome of one Python call `CALL_FUNCTIONS[ai_id](api_key, prompt)`:
either the call raises an exception with message `e` (`err e`), or it returns a
value, which can be a string or `None` (`ok none`). -/
inductive CallResult where
  | ok : Option String → CallResult
  | err : String → CallResult
deriving DecidableEq

/-- The external behavior of the agents: what each `Complete` call does for a
given agent on a given prompt. -/
def Behavior := AgentId → String → CallResult

/-- Does `xs` lead `ys`, i.e. is `xs` an initial run of `ys`?  Used to model
Python's substring test. -/
def leadsChars : List Char → List Char → Bool
  | [], _ => true
  | _ :: _, [] => false
  | c :: cs, d :: ds => c == d && leadsChars cs ds

/-- Does `needle` occur contiguously inside `hay`? -/
def hasChars (needle : List Char) : List Char → Bool
  | [] => leadsChars needle []
  | c :: rest => leadsChars needle (c :: rest) || hasChars needle rest

/-- Python's `needle in hay` on strings: substring containment. -/
def pyIn (needle hay : String) : Bool :=
  hasChars needle.data hay.data

/-- Python's `not s.strip()`: true iff the string has no non-whitespace
character. -/
def pyStripEmpty (s : String) : Bool :=
  s.data.all (fun c => c.isWhitespace)

/-- The `name` field of `AI_CONFIG`, used inside review/revision prompts. -/
def aiName : AgentId → String
  | "openai" => "GPT (OpenAI)"
  | "gemini" => "Gemini (Google)"
  | "perplexity" => "Perplexity"
  | "claude" => "Claude (Anthropic)"
  | _ => ""

/-- Lookup in a dict modelled as an association list (first binding wins). -/
def assocFind {α : Type} (l : List (AgentId × α)) (k : AgentId) : Option α :=
  (l.find? (fun p => p.1 == k)).map Prod.snd

/-- The analysis prompt built for every agent at the initial stage (both
modes), from `user_input`. -/
def analysisPrompt (userInput : String) : String :=
  "다음 논문 관련 내용을 분석해주세요. 연구자 관점에서 핵심을 짚어주세요.\n\n---\n"
    ++ userInput ++ "\n---\n"

/-- The critique prompt sent to a reviewer, embedding the author's display
name and the author's initial answer. -/
def reviewPrompt (authorName authorResp : String) : String :=
  "다음은 다른 AI의 논문 분석 답변입니다.\n당신의 역할: **비평가**. 이 답변에서 논리적 오류, 빠진 데이터, 부족한 근거, 또는 개선이 필요한 부분을 구체적으로 지적해주세요.\n\n**검토 대상 답변 (작성: "
    ++ authorName ++ "):**\n---\n" ++ authorResp
    ++ "\n---\n**지적 사항 (bullet point로 구체적으로):**\n"

/-- The revision prompt sent back to an author, embedding the author's initial
answer, the reviewer's display name and the critique text. -/
def revisePrompt (initResp reviewerName reviewText : String) : String :=
  "당신의 초기 답변에 대한 검토자가 지적한 내용이 있습니다.\n이 지적을 **수용하여** 수정된 최종 답변을 작성해주세요. 지적이 타당하지 않다고 판단되면 그 이유를 briefly 설명하고 유지해도 됩니다.\n\n**당신의 초기 답변:**\n---\n"
    ++ initResp ++ "\n---\n\n**검토자 (" ++ reviewerName ++ ")의 지적:**\n---\n"
    ++ reviewText ++ "\n---\n\n**수정된 최종 답변:**\n"

/-- The `response_texts` block of the consensus prompt: every valid agent's
final answer, labelled with its display name. -/
def responseTexts (valid : List (AgentId × String)) : String :=
  String.intercalate "\n\n"
    (valid.map (fun p => "**【" ++ aiName p.1 ++ "】의 답변:**\n" ++ p.2))

/-- The final consensus prompt, embedding the original input and every valid
agent's final answer. -/
def consensusPrompt (userInput : String) (valid : List (AgentId × String)) : String :=
  "다음은 동일한 논문/질문에 대한 여러 AI의 분석 결과입니다.\n공통점과 차이점을 정리하고, 연구자에게 가장 유용한 최종 권장 분석을 작성해주세요. 한국어로 답변해주세요.\n\n**원본 입력:**\n"
    ++ userInput ++ "\n\n---\n**각 AI의 분석:**\n" ++ responseTexts valid
    ++ "\n---\n\n다음 형식으로 Consensus Report를 작성해주세요:\n\n## 공통점\n- 여러 AI가 일치하는 내용을 bullet point로 나열\n\n## 차이점\n- AI별로 관점이나 강조점이 다른 부분을 bullet point로 나열\n\n## 최종 권장 분석\n- 논문 연구나 후속 연구에 활용하기에 가장 적합한 종합적인 분석 및 권장 사항을 제시\n"

/-- The stored value of one initial-stage call: the returned value on success,
or the caught-exception marker string `"❌ 오류 발생: " + str(e)`. -/
def initialValue : CallResult → Option String
  | .ok t => t
  | .err e => some ("❌ 오류 발생: " ++ e)

/-- The initial stage (both modes): one call per agent, in input order, each
failure caught individually.  Returns the `responses` mapping together with
the list of calls that were issued (agent, prompt). -/
def initialStage (b : Behavior) (ui : String) (agents : List AgentId) :
    List (AgentId × Option String) × List (AgentId × String) :=
  (agents.map (fun a => (a, initialValue (b a (analysisPrompt ui)))),
   agents.map (fun a => (a, analysisPrompt ui)))

/-- One entry passes a validity filter iff the value is truthy (not `None`,
not empty) and does not contain the given failure marker:
Python's `if v and marker not in v`. -/
def validText (marker s : String) : Bool :=
  !(s == "") && !(pyIn marker s)

/-- The validity filters (`valid_responses` / `valid_initial`): keep the
entries whose value is a truthy string free of the failure marker. -/
def filterValid (marker : String) (rs : List (AgentId × Option String)) :
    List (AgentId × String) :=
  rs.filterMap (fun p =>
    match p.2 with
    | none => none
    | some s => if validText marker s then some (p.1, s) else none)

/-- The round-robin reviewer assignment of the deep-mode review loop:
author at index `i` is reviewed by the identity at index `(i+1) % n`;
a self-pairing (possible only when `n = 1`) is skipped. -/
def pairings (authors : List AgentId) : List (AgentId × AgentId) :=
  (List.range authors.length).filterMap (fun i =>
    let author := authors.getD i ""
    let reviewer := authors.getD ((i + 1) % authors.length) ""
    if author = reviewer then none else some (author, reviewer))

/-- The stored text of one review call: the returned value on success, or the
caught-exception marker string `"❌ 검토 오류: " + str(e)`. -/
def reviewValue : CallResult → Option String
  | .ok t => t
  | .err e => some ("❌ 검토 오류: " ++ e)

/-- The review stage: for each round-robin pairing, the reviewer is called on
a critique prompt embedding the author's answer; failures are caught
per-pairing.  Returns `reviews` (author ↦ (reviewer, critique)) and the list
of calls issued (reviewer, prompt). -/
def reviewStage (b : Behavior) (vi : List (AgentId × String)) :
    List (AgentId × AgentId × Option String) × List (AgentId × String) :=
  ((pairings (vi.map Prod.fst)).map (fun pr =>
      (pr.1, pr.2,
       reviewValue (b pr.2 (reviewPrompt (aiName pr.1) ((assocFind vi pr.1).getD ""))))),
   (pairings (vi.map Prod.fst)).map (fun pr =>
      (pr.2, reviewPrompt (aiName pr.1) ((assocFind vi pr.1).getD ""))))

/-- The revision stage, processing the authors of `vi` in order.  For each
author: no stored review, or a review text containing `"❌"`, carries the
author's initial answer forward with no call; otherwise the author is called
on the revision prompt, a raised exception falling back to the initial answer.
A stored review of `None` makes Python's `"❌" in review_text` raise
`TypeError`, aborting the whole loop: the third component reports this crash,
and entries after the crash point are lost.  Returns
(revised entries, revision calls issued, crashed). -/
def reviseStage (b : Behavior) (reviews : List (AgentId × AgentId × Option String)) :
    List (AgentId × String) → List (AgentId × Option String) × List (AgentId × String) × Bool
  | [] => ([], [], false)
  | (author, initResp) :: rest =>
    match assocFind reviews author with
    | none =>
        let r := reviseStage b reviews rest
        ((author, some initResp) :: r.1, r.2.1, r.2.2)
    | some (_, none) => ([], [], true)
    | some (reviewer, some rt) =>
        if pyIn "❌" rt then
          let r := reviseStage b reviews rest
          ((author, some initResp) :: r.1, r.2.1, r.2.2)
        else
          let p := revisePrompt initResp (aiName reviewer) rt
          let r := reviseStage b reviews rest
          match b author p with
          | .ok t => ((author, t) :: r.1, (author, p) :: r.2.1, r.2.2)
          | .err _ => ((author, some initResp) :: r.1, (author, p) :: r.2.1, r.2.2)

/-- Terminal outcome of one run of the analysis block. -/
inductive SessionResult where
  | emptyInput
  | noAgents
  | insufficientAgents
  | crashed
  | noValidArtifacts
  | synthesisFailed : AgentId → String → SessionResult
  | done : AgentId → Option String → SessionResult
deriving DecidableEq

/-- Full observable trace of one run: per-stage mappings, the calls issued at
each stage, and the terminal result. -/
structure SessionTrace where
  initial : List (AgentId × Option String)
  validInitial : List (AgentId × String)
  reviews : List (AgentId × AgentId × Option String)
  revised : List (AgentId × Option String)
  validFinal : List (AgentId × String)
  initialCalls : List (AgentId × String)
  reviewCalls : List (AgentId × String)
  reviseCalls : List (AgentId × String)
  synthCalls : List (AgentId × String)
  result : SessionResult
deriving DecidableEq

/-- A trace with no stage output, for the runs stopped by a precondition. -/
def emptyTrace (r : SessionResult) : SessionTrace :=
  ⟨[], [], [], [], [], [], [], [], [], r⟩

/-- The synthesis step: with no valid responses the run stops with the
no-valid-artifacts warning and no call is issued; otherwise the synthesizer is
the first key of `valid` and is called once on the consensus prompt, the
outcome deciding success or failure.  Returns (result, synthesis calls). -/
def runSynthesis (b : Behavior) (ui : String) (valid : List (AgentId × String)) :
    SessionResult × List (AgentId × String) :=
  match valid with
  | [] => (.noValidArtifacts, [])
  | (s, _) :: _ =>
    match b s (consensusPrompt ui valid) with
    | .ok t => (.done s t, [(s, consensusPrompt ui valid)])
    | .err e => (.synthesisFailed s e, [(s, consensusPrompt ui valid)])

/-- Plain mode: initial stage, validity filter with the `"❌ 오류 발생"` marker,
then synthesis. -/
def runPlainMode (b : Behavior) (ui : String) (agents : List AgentId) : SessionTrace :=
  let st := initialStage b ui agents
  let valid := filterValid "❌ 오류 발생" st.1
  let syn := runSynthesis b ui valid
  ⟨st.1, [], [], [], valid, st.2, [], [], syn.2, syn.1⟩

/-- Deep mode after the agent-count precheck: initial stage and filter; with
fewer than two valid initial answers the review and revision stages are
skipped and the valid initial answers go straight to synthesis; otherwise
review, revision (with possible crash on a `None` critique) and the final
validity filter with the `"❌"` marker feed synthesis. -/
def runDeepCore (b : Behavior) (ui : String) (agents : List AgentId) : SessionTrace :=
  let st := initialStage b ui agents
  let vi := filterValid "❌ 오류 발생" st.1
  if vi.length < 2 then
    let syn := runSynthesis b ui vi
    ⟨st.1, vi, [], [], vi, st.2, [], [], syn.2, syn.1⟩
  else
    let rv := reviewStage b vi
    let rs := reviseStage b rv.1 vi
    if rs.2.2 then
      ⟨st.1, vi, rv.1, rs.1, [], st.2, rv.2, rs.2.1, [], .crashed⟩
    else
      let vf := filterValid "❌" rs.1
      let syn := runSynthesis b ui vf
      ⟨st.1, vi, rv.1, rs.1, vf, st.2, rv.2, rs.2.1, syn.2, syn.1⟩

/-- Deep mode: fewer than two configured agents stops the run before any call
is issued. -/
def runDeepMode (b : Behavior) (ui : String) (agents : List AgentId) : SessionTrace :=
  if agents.length < 2 then emptyTrace .insufficientAgents
  else runDeepCore b ui agents

/-- One run of the analysis block: the blank-input and no-agents prechecks,
then the selected mode. -/
def runSession (b : Behavior) (ui : String) (agents : List AgentId) (deep : Bool) :
    SessionTrace :=
  if pyStripEmpty ui then emptyTrace .emptyInput
  else if agents.isEmpty then emptyTrace .noAgents
  else if deep then runDeepMode b ui agents
  else runPlainMode b ui agents

/-! ### String-containment helper lemmas -/

lemma leadsChars_append_right : ∀ (xs ys zs : List Char),
    leadsChars xs ys = true → leadsChars xs (ys ++ zs) = true
  | [], _, _, _ => rfl
  | _ :: _, [], _, h => by simp [leadsChars] at h
  | c :: cs, d :: ds, zs, h => by
    simp only [leadsChars, Bool.and_eq_true] at h
    simp only [List.cons_append, leadsChars, Bool.and_eq_true]
    exact ⟨h.1, leadsChars_append_right cs ds zs h.2⟩

lemma hasChars_of_leads (xs : List Char) :
    ∀ hay, leadsChars xs hay = true → hasChars xs hay = true
  | [], h => h
  | _ :: _, h => by simp [hasChars, h]

lemma pyIn_append_of_leads (m p e : String) (h : leadsChars m.data p.data = true) :
    pyIn m (p ++ e) = true := by
  unfold pyIn
  rw [String.data_append]
  exact hasChars_of_leads _ _ (leadsChars_append_right _ _ _ h)

lemma pyIn_errEntry (e : String) : pyIn "❌ 오류 발생" ("❌ 오류 발생: " ++ e) = true :=
  pyIn_append_of_leads _ "❌ 오류 발생: " e (by decide)

lemma pyIn_reviewErrEntry (e : String) : pyIn "❌" ("❌ 검토 오류: " ++ e) = true :=
  pyIn_append_of_leads _ "❌ 검토 오류: " e (by decide)

/-! ### Validity-filter helper lemmas -/

lemma validText_of (m s : String) (h1 : s ≠ "") (h2 : pyIn m s = false) :
    validText m s = true := by
  simp [validText, h1, h2]

lemma validText_of_pyIn (m s : String) (h : pyIn m s = true) :
    validText m s = false := by
  simp [validText, h]

lemma filterValid_cons_none (m : String) (a : AgentId) (rs : List (AgentId × Option String)) :
    filterValid m ((a, none) :: rs) = filterValid m rs := rfl

lemma filterValid_cons_some (m : String) (a : AgentId) (s : String)
    (rs : List (AgentId × Option String)) :
    filterValid m ((a, some s) :: rs) =
      if validText m s then (a, s) :: filterValid m rs else filterValid m rs := by
  by_cases h : validText m s = true <;> simp [filterValid, List.filterMap_cons, h]

lemma mem_filterValid_of (m : String) (rs : List (AgentId × Option String))
    (a : AgentId) (s : String) (hm : (a, some s) ∈ rs) (hv : validText m s = true) :
    (a, s) ∈ filterValid m rs := by
  unfold filterValid
  exact List.mem_filterMap.mpr ⟨(a, some s), hm, by simp [hv]⟩

lemma of_mem_filterValid (m : String) (rs : List (AgentId × Option String))
    (pr : AgentId × String) (h : pr ∈ filterValid m rs) :
    (pr.1, some pr.2) ∈ rs ∧ validText m pr.2 = true := by
  unfold filterValid at h
  obtain ⟨⟨qa, qv⟩, hq, he⟩ := List.mem_filterMap.mp h
  cases qv with
  | none => simp at he
  | some s =>
    by_cases hv : validText m s = true
    · simp only [hv, if_true] at he
      cases he
      exact ⟨hq, hv⟩
    · simp [hv] at he

lemma filterValid_keys_sublist (m : String) (rs : List (AgentId × Option String)) :
    ((filterValid m rs).map Prod.fst).Sublist (rs.map Prod.fst) := by
  induction rs with
  | nil => simp [filterValid]
  | cons p rs ih =>
    obtain ⟨a, v⟩ := p
    cases v with
    | none => simpa [filterValid_cons_none] using ih.cons a
    | some s =>
      rw [filterValid_cons_some]
      by_cases hv : validText m s = true
      · simpa [hv] using ih.cons₂ a
      · simpa [hv] using ih.cons a

lemma filterValid_middle_drop (m : String) (pre post : List (AgentId × Option String))
    (a : AgentId) (v : Option String)
    (h : v = none ∨ ∃ s, v = some s ∧ validText m s = false) :
    filterValid m (pre ++ (a, v) :: post) = filterValid m (pre ++ post) := by
  unfold filterValid
  rw [List.filterMap_append, List.filterMap_append, List.filterMap_cons]
  rcases h with rfl | ⟨s, rfl, hs⟩
  · rfl
  · simp [hs]

/-! ### Claims C1 and C10: per-agent status at the stage boundary -/

/-- Agent behavior exhibiting one raising call, one call succeeding with an
empty string, and one call succeeding with a proper answer. -/
def bC1 : Behavior := fun a _ =>
  if a = "openai" then .err "접속 오류"
  else if a = "gemini" then .ok (some "")
  else .ok (some "좋은 분석")

/-- Claim C1 (counterexample): in the batch over `["openai", "gemini"]`,
"gemini"'s call succeeds while its sibling "openai"'s call raises, yet
"gemini" does not get an Ok (valid) entry, because the returned text is empty;
so a successful call does not always yield an Ok entry, refuting the claim as
stated. -/
theorem c1_batch_status_counterexample :
    bC1 "gemini" (analysisPrompt "질문") = CallResult.ok (some "") ∧
    ("gemini", some "") ∈ (initialStage bC1 "질문" ["openai", "gemini"]).1 ∧
    "gemini" ∉
      (filterValid "❌ 오류 발생" (initialStage bC1 "질문" ["openai", "gemini"]).1).map
        Prod.fst := by
  decide

/-- Claim C1 (amended): a stage execution produces exactly one result entry
per input agent, in input order, and no individual failure aborts the batch;
an agent whose call raises an error is classified failed (excluded from the
valid set), while a sibling agent whose call succeeds with a non-empty text
not containing the failure marker "❌ 오류 발생" is classified Ok (kept in the
valid set). -/
theorem c1_stage_entries_and_status (b : Behavior) (ui : String) (agents : List AgentId) :
    (initialStage b ui agents).1.map Prod.fst = agents ∧
    (∀ a e, b a (analysisPrompt ui) = CallResult.err e →
      a ∉ (filterValid "❌ 오류 발생" (initialStage b ui agents).1).map Prod.fst) ∧
    (∀ a t, a ∈ agents → b a (analysisPrompt ui) = CallResult.ok (some t) → t ≠ "" →
      pyIn "❌ 오류 발생" t = false →
      a ∈ (filterValid "❌ 오류 발생" (initialStage b ui agents).1).map Prod.fst) := by
  refine ⟨?_, ?_, ?_⟩
  · simp [initialStage, List.map_map, Function.comp_def]
  · intro a e hb hmem
    obtain ⟨⟨a', s⟩, hps, hfst⟩ := List.mem_map.mp hmem
    simp only at hfst
    subst hfst
    obtain ⟨hmem', hvalid⟩ := of_mem_filterValid _ _ _ hps
    have hvalid' : validText "❌ 오류 발생" s = true := hvalid
    simp only [initialStage, List.mem_map] at hmem'
    obtain ⟨x, hxmem, hx⟩ := hmem'
    rw [Prod.mk.injEq] at hx
    obtain ⟨rfl, hval⟩ := hx
    rw [hb] at hval
    simp only [initialValue, Option.some.injEq] at hval
    rw [← hval, validText_of_pyIn _ _ (pyIn_errEntry e)] at hvalid'
    exact Bool.false_ne_true hvalid'
  · intro a t ha hb ht hpy
    have hmem : (a, some t) ∈ (initialStage b ui agents).1 := by
      simp only [initialStage, List.mem_map]
      exact ⟨a, ha, by rw [hb]; rfl⟩
    exact List.mem_map.mpr
      ⟨(a, t), mem_filterValid_of _ _ _ _ hmem (validText_of _ _ ht hpy), rfl⟩

/-- Claim C1 witness: the amended theorem applied to a concrete batch of a
raising agent and a succeeding agent. -/
theorem c1_stage_entries_and_status_witness :
    (initialStage bC1 "질문" ["openai", "claude"]).1.map Prod.fst = ["openai", "claude"] ∧
    "openai" ∉
      (filterValid "❌ 오류 발생" (initialStage bC1 "질문" ["openai", "claude"]).1).map
        Prod.fst ∧
    "claude" ∈
      (filterValid "❌ 오류 발생" (initialStage bC1 "질문" ["openai", "claude"]).1).map
        Prod.fst :=
  ⟨(c1_stage_entries_and_status bC1 "질문" ["openai", "claude"]).1,
   (c1_stage_entries_and_status bC1 "질문" ["openai", "claude"]).2.1 "openai" "접속 오류"
     (by decide),
   (c1_stage_entries_and_status bC1 "질문" ["openai", "claude"]).2.2 "claude" "좋은 분석"
     (by decide) (by decide) (by decide) (by decide)⟩

/-- Claim C10: at each validity filter — the `"❌ 오류 발생"` filter after the
initial stage of both modes and the `"❌"` filter after the revision stage — an
entry whose value is `None` or the empty string is excluded from the valid
set, exactly as an entry recording a raised call (the corresponding caught
error string) is. -/
theorem c10_falsy_success_filtered (pre post : List (AgentId × Option String))
    (a : AgentId) (v : Option String) (e : String) (hv : v = none ∨ v = some "") :
    (filterValid "❌ 오류 발생" (pre ++ (a, v) :: post) = filterValid "❌ 오류 발생" (pre ++ post) ∧
      filterValid "❌ 오류 발생" (pre ++ (a, some ("❌ 오류 발생: " ++ e)) :: post) =
        filterValid "❌ 오류 발생" (pre ++ post)) ∧
    (filterValid "❌" (pre ++ (a, v) :: post) = filterValid "❌" (pre ++ post) ∧
      filterValid "❌" (pre ++ (a, some ("❌ 검토 오류: " ++ e)) :: post) =
        filterValid "❌" (pre ++ post)) := by
  have hdrop : ∀ m : String, v = none ∨ ∃ s, v = some s ∧ validText m s = false := by
    intro m
    rcases hv with rfl | rfl
    · exact Or.inl rfl
    · exact Or.inr ⟨"", rfl, rfl⟩
  refine ⟨⟨filterValid_middle_drop _ _ _ _ _ (hdrop _), ?_⟩,
    filterValid_middle_drop _ _ _ _ _ (hdrop _), ?_⟩
  · exact filterValid_middle_drop _ _ _ _ _
      (Or.inr ⟨_, rfl, validText_of_pyIn _ _ (pyIn_errEntry e)⟩)
  · exact filterValid_middle_drop _ _ _ _ _
      (Or.inr ⟨_, rfl, validText_of_pyIn _ _ (by
        have h := pyIn_append_of_leads "❌" "❌ 검토 오류: " e (by decide)
        exact h)⟩)

/-- Claim C10 witness: the theorem applied to a concrete result mapping. -/
theorem c10_falsy_success_filtered_witness :
    filterValid "❌ 오류 발생" [("openai", some "좋은 분석"), ("gemini", none)] =
      filterValid "❌ 오류 발생" [("openai", some "좋은 분석")] ∧
    filterValid "❌" [("openai", some "좋은 분석"), ("gemini", none)] =
      filterValid "❌" [("openai", some "좋은 분석")] :=
  ⟨(c10_falsy_success_filtered [("openai", some "좋은 분석")] [] "gemini" none "오류"
      (Or.inl rfl)).1.1,
   (c10_falsy_success_filtered [("openai", some "좋은 분석")] [] "gemini" none "오류"
      (Or.inl rfl)).2.1⟩

/-! ### Claim C2: round-robin pairing -/

lemma mod_succ_ne (n i : Nat) (h2 : 2 ≤ n) (hi : i < n) : (i + 1) % n ≠ i := by
  intro h
  rcases Nat.lt_or_ge (i + 1) n with hlt | hge
  · rw [Nat.mod_eq_of_lt hlt] at h
    omega
  · have hin : i + 1 = n := by omega
    rw [hin, Nat.mod_self] at h
    omega

lemma pairings_entry_ne (authors : List AgentId) (hnd : authors.Nodup)
    (h2 : 2 ≤ authors.length) (i : Nat) (hi : i < authors.length) :
    authors.getD i "" ≠ authors.getD ((i + 1) % authors.length) "" := by
  have hn : 0 < authors.length := by omega
  have hj : (i + 1) % authors.length < authors.length := Nat.mod_lt _ hn
  rw [List.getD_eq_getElem _ _ hi, List.getD_eq_getElem _ _ hj]
  intro h
  exact mod_succ_ne _ _ h2 hi ((hnd.getElem_inj_iff).mp h.symm)

lemma filterMap_eq_map_of_some {α β : Type} (f : α → Option β) (g : α → β) :
    ∀ l : List α, (∀ x ∈ l, f x = some (g x)) → l.filterMap f = l.map g
  | [], _ => rfl
  | x :: xs, h => by
    have hx := h x (List.mem_cons_self x xs)
    have ih := filterMap_eq_map_of_some f g xs (fun y hy => h y (List.mem_cons_of_mem x hy))
    simp [List.filterMap_cons, hx, ih]

lemma map_getD_range {α : Type} (l : List α) (d : α) :
    (List.range l.length).map (fun i => l.getD i d) = l := by
  apply List.ext_getElem
  · simp
  · intro n h1 h2
    simp only [List.getElem_map, List.getElem_range]
    exact List.getD_eq_getElem _ _ h2

lemma pairings_eq_map (authors : List AgentId) (hnd : authors.Nodup)
    (h2 : 2 ≤ authors.length) :
    pairings authors = (List.range authors.length).map
      (fun i => (authors.getD i "", authors.getD ((i + 1) % authors.length) "")) := by
  unfold pairings
  refine filterMap_eq_map_of_some _ _ _ (fun i hi => ?_)
  have hi' : i < authors.length := List.mem_range.mp hi
  have hne := pairings_entry_ne authors hnd h2 i hi'
  simp only [if_neg hne]

/-- Claim C2: for a duplicate-free sequence of at least two authors holding
valid initial artifacts, the round-robin pairing assigns to the author at
index `i` the reviewer at index `(i+1) mod n`, never assigns an author to
itself, and gives every author exactly one assignment, in author order. -/
theorem c2_round_robin_pairing (authors : List AgentId) (hnd : authors.Nodup)
    (h2 : 2 ≤ authors.length) :
    (pairings authors).map Prod.fst = authors ∧
    (∀ pr ∈ pairings authors, pr.1 ≠ pr.2) ∧
    ∀ i, i < authors.length →
      (pairings authors).getD i ("", "") =
        (authors.getD i "", authors.getD ((i + 1) % authors.length) "") := by
  have hmap := pairings_eq_map authors hnd h2
  refine ⟨?_, ?_, ?_⟩
  · rw [hmap, List.map_map]
    simpa [Function.comp_def] using map_getD_range authors ""
  · intro pr hpr
    rw [hmap] at hpr
    obtain ⟨i, hi, rfl⟩ := List.mem_map.mp hpr
    exact pairings_entry_ne authors hnd h2 i (List.mem_range.mp hi)
  · intro i hi
    rw [hmap]
    have hlen : i < ((List.range authors.length).map
        (fun i => (authors.getD i "", authors.getD ((i + 1) % authors.length) ""))).length := by
      simpa using hi
    rw [List.getD_eq_getElem _ _ hlen, List.getElem_map, List.getElem_range]

/-- Claim C2 witness: the theorem applied to three concrete authors, with the
full cyclic assignment evaluated. -/
theorem c2_round_robin_pairing_witness :
    (pairings ["openai", "gemini", "claude"]).map Prod.fst =
      ["openai", "gemini", "claude"] ∧
    pairings ["openai", "gemini", "claude"] =
      [("openai", "gemini"), ("gemini", "claude"), ("claude", "openai")] :=
  ⟨(c2_round_robin_pairing ["openai", "gemini", "claude"] (by decide) (by decide)).1,
   by decide⟩

/-! ### Revision-stage helper lemmas -/

/-- Does the stored review for `a` make the revision loop raise, i.e. is it a
successful review call that returned `None`? -/
def reviewCrashes (reviews : List (AgentId × AgentId × Option String)) (a : AgentId) : Bool :=
  match assocFind reviews a with
  | some (_, none) => true
  | _ => false

/-- The revised value the loop stores for one author (assuming no earlier
crash): no stored review or a `"❌"`-marked critique carries the initial
answer; otherwise the revision call's return value, an exception falling back
to the initial answer. -/
def reviseValue (b : Behavior) (reviews : List (AgentId × AgentId × Option String))
    (author : AgentId) (initResp : String) : Option String :=
  match assocFind reviews author with
  | none => some initResp
  | some (_, none) => none
  | some (reviewer, some rt) =>
    if pyIn "❌" rt then some initResp
    else
      match b author (revisePrompt initResp (aiName reviewer) rt) with
      | .ok t => t
      | .err _ => some initResp

/-- The revision call the loop issues for one author, when it issues one. -/
def reviseCallOf (b : Behavior) (reviews : List (AgentId × AgentId × Option String))
    (author : AgentId) (initResp : String) : Option (AgentId × String) :=
  match assocFind reviews author with
  | some (reviewer, some rt) =>
    if pyIn "❌" rt then none
    else some (author, revisePrompt initResp (aiName reviewer) rt)
  | _ => none

lemma reviseStage_eq (b : Behavior) (reviews : List (AgentId × AgentId × Option String)) :
    ∀ vi : List (AgentId × String), (∀ p ∈ vi, reviewCrashes reviews p.1 = false) →
    reviseStage b reviews vi =
      (vi.map (fun p => (p.1, reviseValue b reviews p.1 p.2)),
       vi.filterMap (fun p => reviseCallOf b reviews p.1 p.2), false)
  | [], _ => rfl
  | (author, initResp) :: rest, h => by
    have hhead : reviewCrashes reviews author = false := h _ (List.mem_cons_self _ _)
    have ih := reviseStage_eq b reviews rest (fun p hp => h p (List.mem_cons_of_mem _ hp))
    cases hfind : assocFind reviews author with
    | none => simp [reviseStage, reviseValue, reviseCallOf, hfind, ih]
    | some pr =>
      obtain ⟨reviewer, rt⟩ := pr
      cases rt with
      | none => simp [reviewCrashes, hfind] at hhead
      | some rtext =>
        by_cases hx : pyIn "❌" rtext = true
        · simp [reviseStage, reviseValue, reviseCallOf, hfind, hx, ih]
        · cases hcall : b author (revisePrompt initResp (aiName reviewer) rtext) with
          | ok t => simp [reviseStage, reviseValue, reviseCallOf, hfind, hx, hcall, ih]
          | err e => simp [reviseStage, reviseValue, reviseCallOf, hfind, hx, hcall, ih]

lemma reviseStage_keys (b : Behavior) (reviews : List (AgentId × AgentId × Option String)) :
    ∀ vi : List (AgentId × String), (reviseStage b reviews vi).2.2 = false →
    (reviseStage b reviews vi).1.map Prod.fst = vi.map Prod.fst
  | [], _ => rfl
  | (author, initResp) :: rest, h => by
    cases hfind : assocFind reviews author with
    | none =>
      have h' : (reviseStage b reviews rest).2.2 = false := by
        simpa [reviseStage, hfind] using h
      simp [reviseStage, hfind, reviseStage_keys b reviews rest h']
    | some pr =>
      obtain ⟨reviewer, rt⟩ := pr
      cases rt with
      | none => simp [reviseStage, hfind] at h
      | some rtext =>
        by_cases hx : pyIn "❌" rtext = true
        · have h' : (reviseStage b reviews rest).2.2 = false := by
            simpa [reviseStage, hfind, hx] using h
          simp [reviseStage, hfind, hx, reviseStage_keys b reviews rest h']
        · cases hcall : b author (revisePrompt initResp (aiName reviewer) rtext) with
          | ok t =>
            have h' : (reviseStage b reviews rest).2.2 = false := by
              simpa [reviseStage, hfind, hx, hcall] using h
            simp [reviseStage, hfind, hx, hcall, reviseStage_keys b reviews rest h']
          | err e =>
            have h' : (reviseStage b reviews rest).2.2 = false := by
              simpa [reviseStage, hfind, hx, hcall] using h
            simp [reviseStage, hfind, hx, hcall, reviseStage_keys b reviews rest h']

/-! ### Claim C4: revision fallback, and the `None`-critique crash -/

/-- Agent behavior where "gemini"'s initial call succeeds and its review call
succeeds but returns `None`, while "openai" always returns a proper text. -/
def bC4 : Behavior := fun a p =>
  if a = "gemini" then
    (if p = analysisPrompt "질문" then .ok (some "제미니 분석") else .ok none)
  else .ok (some "오픈 분석")

/-- Claim C4 (evaluation at the failing input): both agents hold valid
initial artifacts; "openai"'s stored review is a successful call that
returned `None`; the revision loop then evaluates `"❌" in None`, which raises
`TypeError` and aborts the whole run, so every author — including "gemini",
whose review went fine — is dropped, and the session ends in a crash rather
than carrying initial artifacts forward. -/
theorem c4_none_review_crash :
    ("gemini", "제미니 분석") ∈ (runSession bC4 "질문" ["openai", "gemini"] true).validInitial ∧
    assocFind (runSession bC4 "질문" ["openai", "gemini"] true).reviews "openai" =
      some ("gemini", none) ∧
    (runSession bC4 "질문" ["openai", "gemini"] true).result = SessionResult.crashed ∧
    (runSession bC4 "질문" ["openai", "gemini"] true).revised = [] := by
  decide

/-! ### Claim C5: fallback artifacts and the final validity filter -/

/-- Agent behavior where "openai"'s initial answer is valid but contains a
bare "❌" character, and every review call raises. -/
def bC5 : Behavior := fun a p =>
  if p = analysisPrompt "질문" then
    (if a = "openai" then .ok (some "분석 ❌ 주의점") else .ok (some "좋은 분석"))
  else .err "타임아웃"

/-- Claim C5 (counterexample): "openai" holds a valid initial artifact (it
passes the `"❌ 오류 발생"` filter), its review fails, and its initial artifact
is carried forward as fallback — yet "openai" is not in the final valid set,
because the post-revision filter uses the stricter `"❌"` marker and the
artifact text contains a bare "❌"; so not every author holding a valid
artifact survives into synthesis. -/
theorem c5_fallback_dropped_counterexample :
    ("openai", "분석 ❌ 주의점") ∈ (runSession bC5 "질문" ["openai", "gemini"] true).validInitial ∧
    assocFind (runSession bC5 "질문" ["openai", "gemini"] true).reviews "openai" =
      some ("gemini", some "❌ 검토 오류: 타임아웃") ∧
    ("openai", some "분석 ❌ 주의점") ∈ (runSession bC5 "질문" ["openai", "gemini"] true).revised ∧
    "openai" ∉
      ((runSession bC5 "질문" ["openai", "gemini"] true).validFinal).map Prod.fst := by
  decide

/-- Claim C5 (amended): after the revision stage, an author whose review or
revision call failed and who therefore fell back to a valid initial artifact
is included in the final valid set with Ok status, provided the artifact's
text does not contain the character "❌" (the post-revision filter is stricter
than the initial one, so a valid initial text containing a bare "❌" is
dropped). -/
theorem c5_fallback_survives (b : Behavior)
    (reviews : List (AgentId × AgentId × Option String)) (vi : List (AgentId × String))
    (hnc : ∀ p ∈ vi, reviewCrashes reviews p.1 = false)
    (a : AgentId) (initResp : String) (hmem : (a, initResp) ∈ vi)
    (hne : initResp ≠ "") (hx : pyIn "❌" initResp = false)
    (hfb : assocFind reviews a = none ∨
      (∃ r rt, assocFind reviews a = some (r, some rt) ∧ pyIn "❌" rt = true) ∨
      (∃ r rt e, assocFind reviews a = some (r, some rt) ∧ pyIn "❌" rt = false ∧
        b a (revisePrompt initResp (aiName r) rt) = CallResult.err e)) :
    (a, initResp) ∈ filterValid "❌" (reviseStage b reviews vi).1 := by
  have heq := reviseStage_eq b reviews vi hnc
  have hval : reviseValue b reviews a initResp = some initResp := by
    rcases hfb with hf | ⟨r, rt, hf, hrt⟩ | ⟨r, rt, e, hf, hrt, hcall⟩
    · simp [reviseValue, hf]
    · simp [reviseValue, hf, hrt]
    · simp [reviseValue, hf, hrt, hcall]
  have hmem' : (a, some initResp) ∈ (reviseStage b reviews vi).1 := by
    rw [heq]
    exact List.mem_map.mpr ⟨(a, initResp), hmem, by rw [hval]⟩
  exact mem_filterValid_of _ _ _ _ hmem' (validText_of _ _ hne hx)

/-- Agent behavior for the C5 witness: every call raises. -/
def bC5W : Behavior := fun _ _ => .err "접속 오류"

/-- Claim C5 witness: the amended theorem applied to one author with no
stored review, whose clean initial artifact survives the final filter. -/
theorem c5_fallback_survives_witness :
    ("openai", "분석 좋음") ∈
      filterValid "❌" (reviseStage bC5W [] [("openai", "분석 좋음")]).1 :=
  c5_fallback_survives bC5W [] [("openai", "분석 좋음")] (by decide) "openai" "분석 좋음"
    (by decide) (by decide) (by decide) (Or.inl rfl)

/-! ### Session-level branch lemmas -/

lemma initialStage_keys (b : Behavior) (ui : String) (agents : List AgentId) :
    (initialStage b ui agents).1.map Prod.fst = agents := by
  simp [initialStage, List.map_map, Function.comp_def]

lemma runSession_plain (b : Behavior) (ui : String) (agents : List AgentId)
    (hui : pyStripEmpty ui = false) (hne : agents ≠ []) :
    runSession b ui agents false = runPlainMode b ui agents := by
  simp [runSession, hui, List.isEmpty_eq_false.mpr hne]

lemma runSession_deep (b : Behavior) (ui : String) (agents : List AgentId)
    (hui : pyStripEmpty ui = false) (hne : agents ≠ []) :
    runSession b ui agents true = runDeepMode b ui agents := by
  simp [runSession, hui, List.isEmpty_eq_false.mpr hne]

lemma runDeepMode_core (b : Behavior) (ui : String) (agents : List AgentId)
    (h2 : 2 ≤ agents.length) :
    runDeepMode b ui agents = runDeepCore b ui agents := by
  rw [runDeepMode, if_neg (by omega)]

lemma runDeepCore_degrade (b : Behavior) (ui : String) (agents : List AgentId)
    (h : (filterValid "❌ 오류 발생" (initialStage b ui agents).1).length < 2) :
    runDeepCore b ui agents =
      ⟨(initialStage b ui agents).1,
       filterValid "❌ 오류 발생" (initialStage b ui agents).1, [], [],
       filterValid "❌ 오류 발생" (initialStage b ui agents).1,
       (initialStage b ui agents).2, [], [],
       (runSynthesis b ui (filterValid "❌ 오류 발생" (initialStage b ui agents).1)).2,
       (runSynthesis b ui (filterValid "❌ 오류 발생" (initialStage b ui agents).1)).1⟩ := by
  simp only [runDeepCore, if_pos h]

lemma runDeepCore_crash (b : Behavior) (ui : String) (agents : List AgentId)
    (h : ¬ (filterValid "❌ 오류 발생" (initialStage b ui agents).1).length < 2)
    (hc : (reviseStage b
        (reviewStage b (filterValid "❌ 오류 발생" (initialStage b ui agents).1)).1
        (filterValid "❌ 오류 발생" (initialStage b ui agents).1)).2.2 = true) :
    runDeepCore b ui agents =
      ⟨(initialStage b ui agents).1,
       filterValid "❌ 오류 발생" (initialStage b ui agents).1,
       (reviewStage b (filterValid "❌ 오류 발생" (initialStage b ui agents).1)).1,
       (reviseStage b
         (reviewStage b (filterValid "❌ 오류 발생" (initialStage b ui agents).1)).1
         (filterValid "❌ 오류 발생" (initialStage b ui agents).1)).1, [],
       (initialStage b ui agents).2,
       (reviewStage b (filterValid "❌ 오류 발생" (initialStage b ui agents).1)).2,
       (reviseStage b
         (reviewStage b (filterValid "❌ 오류 발생" (initialStage b ui agents).1)).1
         (filterValid "❌ 오류 발생" (initialStage b ui agents).1)).2.1, [],
       SessionResult.crashed⟩ := by
  simp only [runDeepCore, if_neg h, hc, if_pos]

lemma runDeepCore_full (b : Behavior) (ui : String) (agents : List AgentId)
    (h : ¬ (filterValid "❌ 오류 발생" (initialStage b ui agents).1).length < 2)
    (hc : (reviseStage b
        (reviewStage b (filterValid "❌ 오류 발생" (initialStage b ui agents).1)).1
        (filterValid "❌ 오류 발생" (initialStage b ui agents).1)).2.2 = false) :
    runDeepCore b ui agents =
      ⟨(initialStage b ui agents).1,
       filterValid "❌ 오류 발생" (initialStage b ui agents).1,
       (reviewStage b (filterValid "❌ 오류 발생" (initialStage b ui agents).1)).1,
       (reviseStage b
         (reviewStage b (filterValid "❌ 오류 발생" (initialStage b ui agents).1)).1
         (filterValid "❌ 오류 발생" (initialStage b ui agents).1)).1,
       filterValid "❌" (reviseStage b
         (reviewStage b (filterValid "❌ 오류 발생" (initialStage b ui agents).1)).1
         (filterValid "❌ 오류 발생" (initialStage b ui agents).1)).1,
       (initialStage b ui agents).2,
       (reviewStage b (filterValid "❌ 오류 발생" (initialStage b ui agents).1)).2,
       (reviseStage b
         (reviewStage b (filterValid "❌ 오류 발생" (initialStage b ui agents).1)).1
         (filterValid "❌ 오류 발생" (initialStage b ui agents).1)).2.1,
       (runSynthesis b ui (filterValid "❌" (reviseStage b
         (reviewStage b (filterValid "❌ 오류 발생" (initialStage b ui agents).1)).1
         (filterValid "❌ 오류 발생" (initialStage b ui agents).1)).1)).2,
       (runSynthesis b ui (filterValid "❌" (reviseStage b
         (reviewStage b (filterValid "❌ 오류 발생" (initialStage b ui agents).1)).1
         (filterValid "❌ 오류 발생" (initialStage b ui agents).1)).1)).1⟩ := by
  simp only [runDeepCore, if_neg h, hc, Bool.false_eq_true, if_neg, if_false]

lemma runSession_shape (b : Behavior) (ui : String) (agents : List AgentId) (deep : Bool)
    (hui : pyStripEmpty ui = false) (hne : agents ≠ [])
    (hd : deep = true → 2 ≤ agents.length)
    (hcr : (runSession b ui agents deep).result ≠ SessionResult.crashed) :
    ((runSession b ui agents deep).validFinal.map Prod.fst).Sublist agents ∧
    (runSession b ui agents deep).result =
      (runSynthesis b ui (runSession b ui agents deep).validFinal).1 ∧
    (runSession b ui agents deep).synthCalls =
      (runSynthesis b ui (runSession b ui agents deep).validFinal).2 := by
  cases deep with
  | false =>
    rw [runSession_plain b ui agents hui hne]
    refine ⟨?_, rfl, rfl⟩
    have h := filterValid_keys_sublist "❌ 오류 발생" (initialStage b ui agents).1
    rwa [initialStage_keys] at h
  | true =>
    rw [runSession_deep b ui agents hui hne, runDeepMode_core b ui agents (hd rfl)] at hcr ⊢
    by_cases hlt : (filterValid "❌ 오류 발생" (initialStage b ui agents).1).length < 2
    · rw [runDeepCore_degrade b ui agents hlt]
      refine ⟨?_, rfl, rfl⟩
      have h := filterValid_keys_sublist "❌ 오류 발생" (initialStage b ui agents).1
      rwa [initialStage_keys] at h
    · by_cases hc : (reviseStage b
          (reviewStage b (filterValid "❌ 오류 발생" (initialStage b ui agents).1)).1
          (filterValid "❌ 오류 발생" (initialStage b ui agents).1)).2.2 = true
      · rw [runDeepCore_crash b ui agents hlt hc] at hcr
        exact absurd rfl hcr
      · have hc' : (reviseStage b
            (reviewStage b (filterValid "❌ 오류 발생" (initialStage b ui agents).1)).1
            (filterValid "❌ 오류 발생" (initialStage b ui agents).1)).2.2 = false := by
          simpa using hc
        rw [runDeepCore_full b ui agents hlt hc']
        refine ⟨?_, rfl, rfl⟩
        have h1 := filterValid_keys_sublist "❌" (reviseStage b
          (reviewStage b (filterValid "❌ 오류 발생" (initialStage b ui agents).1)).1
          (filterValid "❌ 오류 발생" (initialStage b ui agents).1)).1
        rw [reviseStage_keys b _ _ hc'] at h1
        have h2 := filterValid_keys_sublist "❌ 오류 발생" (initialStage b ui agents).1
        rw [initialStage_keys] at h2
        exact h1.trans h2

/-! ### Claim C3: deep-mode degrade with a single valid artifact -/

/-- Claim C3: in deep mode with at least two configured agents but exactly one
valid initial artifact, the session skips review and revision entirely (no
review or revision output, no review or revision calls), proceeds to synthesis
on that single artifact, and — the synthesis call succeeding — still reaches
DONE instead of hard-failing. -/
theorem c3_degrade_single_artifact (b : Behavior) (ui : String) (agents : List AgentId)
    (s0 : AgentId) (t0 : String)
    (hui : pyStripEmpty ui = false) (h2 : 2 ≤ agents.length)
    (hv : filterValid "❌ 오류 발생" (initialStage b ui agents).1 = [(s0, t0)])
    (hsyn : ∃ c, b s0 (consensusPrompt ui [(s0, t0)]) = CallResult.ok c) :
    (runSession b ui agents true).reviews = [] ∧
    (runSession b ui agents true).revised = [] ∧
    (runSession b ui agents true).reviewCalls = [] ∧
    (runSession b ui agents true).reviseCalls = [] ∧
    (runSession b ui agents true).validFinal = [(s0, t0)] ∧
    ∃ c, (runSession b ui agents true).result = SessionResult.done s0 c := by
  have hne : agents ≠ [] := by
    intro h
    rw [h] at h2
    simp at h2
  rw [runSession_deep b ui agents hui hne, runDeepMode_core b ui agents h2,
    runDeepCore_degrade b ui agents (by rw [hv]; simp)]
  obtain ⟨c, hcall⟩ := hsyn
  refine ⟨rfl, rfl, rfl, rfl, hv, c, ?_⟩
  simp only [hv]
  simp [runSynthesis, hcall]

/-- Agent behavior for the C3 witness: "openai" answers everything, every
other agent raises. -/
def bC3 : Behavior := fun a _ =>
  if a = "openai" then .ok (some "좋은 분석") else .err "한도 초과"

/-- Claim C3 witness: the theorem applied to two configured agents of which
only "openai" produces a valid initial answer. -/
theorem c3_degrade_single_artifact_witness :
    (runSession bC3 "질문" ["openai", "gemini"] true).reviews = [] ∧
    (runSession bC3 "질문" ["openai", "gemini"] true).revised = [] ∧
    (runSession bC3 "질문" ["openai", "gemini"] true).reviewCalls = [] ∧
    (runSession bC3 "질문" ["openai", "gemini"] true).reviseCalls = [] ∧
    (runSession bC3 "질문" ["openai", "gemini"] true).validFinal = [("openai", "좋은 분석")] ∧
    ∃ c, (runSession bC3 "질문" ["openai", "gemini"] true).result =
      SessionResult.done "openai" c :=
  c3_degrade_single_artifact bC3 "질문" ["openai", "gemini"] "openai" "좋은 분석"
    (by decide) (by decide) (by decide) ⟨some "좋은 분석", by decide⟩

/-! ### Claim C6: zero valid artifacts at synthesis -/

/-- Claim C6: when a run that passed the input and agent prechecks (and did
not crash) reaches synthesis with an empty valid artifact set, the session
terminates failed with the no-valid-artifacts outcome and no synthesis
completion call is attempted. -/
theorem c6_zero_valid_fails (b : Behavior) (ui : String) (agents : List AgentId)
    (deep : Bool) (hui : pyStripEmpty ui = false) (hne : agents ≠ [])
    (hd : deep = true → 2 ≤ agents.length)
    (hcr : (runSession b ui agents deep).result ≠ SessionResult.crashed)
    (hv : (runSession b ui agents deep).validFinal = []) :
    (runSession b ui agents deep).result = SessionResult.noValidArtifacts ∧
    (runSession b ui agents deep).synthCalls = [] := by
  obtain ⟨-, hres, hcalls⟩ := runSession_shape b ui agents deep hui hne hd hcr
  rw [hres, hcalls, hv]
  exact ⟨rfl, rfl⟩

/-- Agent behavior for the C6 witness: every call raises. -/
def bC6 : Behavior := fun _ _ => .err "서버 오류"

/-- Claim C6 witness: the theorem applied to a plain-mode run in which the
only agent's call raises. -/
theorem c6_zero_valid_fails_witness :
    (runSession bC6 "질문" ["openai"] false).result = SessionResult.noValidArtifacts ∧
    (runSession bC6 "질문" ["openai"] false).synthCalls = [] :=
  c6_zero_valid_fails bC6 "질문" ["openai"] false (by decide) (by decide) (by decide)
    (by decide) (by decide)

/-! ### Claim C7: synthesizer selection and synthesis outcome -/

/-- Claim C7: when the valid final artifact set is non-empty, the synthesizer
is its first entry — the first agent in the session's stable agent ordering
holding a valid final artifact (the valid keys are an order-preserving
subsequence of the input ordering) — exactly one synthesis call is issued (no
fallback synthesizer), and the session reaches DONE with the consensus text if
that call succeeds, or fails with the underlying error surfaced if it
raises. -/
theorem c7_synthesizer_first_valid (b : Behavior) (ui : String) (agents : List AgentId)
    (deep : Bool) (hui : pyStripEmpty ui = false) (hne : agents ≠ [])
    (hd : deep = true → 2 ≤ agents.length)
    (hcr : (runSession b ui agents deep).result ≠ SessionResult.crashed)
    (s : AgentId) (t : String) (rest : List (AgentId × String))
    (hv : (runSession b ui agents deep).validFinal = (s, t) :: rest) :
    ((runSession b ui agents deep).validFinal.map Prod.fst).Sublist agents ∧
    (runSession b ui agents deep).synthCalls =
      [(s, consensusPrompt ui ((s, t) :: rest))] ∧
    ((∃ c, b s (consensusPrompt ui ((s, t) :: rest)) = CallResult.ok c ∧
        (runSession b ui agents deep).result = SessionResult.done s c) ∨
      (∃ e, b s (consensusPrompt ui ((s, t) :: rest)) = CallResult.err e ∧
        (runSession b ui agents deep).result = SessionResult.synthesisFailed s e)) := by
  obtain ⟨hsub, hres, hcalls⟩ := runSession_shape b ui agents deep hui hne hd hcr
  rw [hv] at hres hcalls
  refine ⟨hsub, ?_, ?_⟩
  · rw [hcalls]
    cases hc : b s (consensusPrompt ui ((s, t) :: rest)) with
    | ok c => simp [runSynthesis, hc]
    | err e => simp [runSynthesis, hc]
  · cases hc : b s (consensusPrompt ui ((s, t) :: rest)) with
    | ok c =>
      refine Or.inl ⟨c, rfl, ?_⟩
      rw [hres]
      simp [runSynthesis, hc]
    | err e =>
      refine Or.inr ⟨e, rfl, ?_⟩
      rw [hres]
      simp [runSynthesis, hc]

/-- Agent behavior for the C7 witness: every call succeeds with the same
text. -/
def bC7 : Behavior := fun _ _ => .ok (some "공통 분석")

/-- Claim C7 witness: the theorem applied to a plain-mode run with three
succeeding agents; the synthesizer is the first agent in input order. -/
theorem c7_synthesizer_first_valid_witness :
    ((runSession bC7 "질문" ["openai", "gemini", "claude"] false).validFinal.map
      Prod.fst).Sublist ["openai", "gemini", "claude"] ∧
    (runSession bC7 "질문" ["openai", "gemini", "claude"] false).synthCalls =
      [("openai", consensusPrompt "질문"
        [("openai", "공통 분석"), ("gemini", "공통 분석"), ("claude", "공통 분석")])] ∧
    ((∃ c, bC7 "openai" (consensusPrompt "질문"
        [("openai", "공통 분석"), ("gemini", "공통 분석"), ("claude", "공통 분석")]) =
          CallResult.ok c ∧
        (runSession bC7 "질문" ["openai", "gemini", "claude"] false).result =
          SessionResult.done "openai" c) ∨
      (∃ e, bC7 "openai" (consensusPrompt "질문"
        [("openai", "공통 분석"), ("gemini", "공통 분석"), ("claude", "공통 분석")]) =
          CallResult.err e ∧
        (runSession bC7 "질문" ["openai", "gemini", "claude"] false).result =
          SessionResult.synthesisFailed "openai" e)) :=
  c7_synthesizer_first_valid bC7 "질문" ["openai", "gemini", "claude"] false
    (by decide) (by decide) (by decide) (by decide) "openai" "공통 분석"
    [("gemini", "공통 분석"), ("claude", "공통 분석")] (by decide)

/-! ### Claim C8: deep-mode agent-count precondition -/

/-- Agent behavior for the C8 witness. -/
def bC8 : Behavior := fun _ _ => .ok (some "분석")

/-- Claim C8: selecting deep mode with fewer than two configured agents stops
the run with a precondition failure (the insufficient-agents warning, or the
no-agents warning when none is configured) before any completion call is
issued at any stage. -/
theorem c8_deep_precondition (b : Behavior) (ui : String) (agents : List AgentId)
    (hui : pyStripEmpty ui = false) (hlen : agents.length < 2) :
    ((runSession b ui agents true).result = SessionResult.insufficientAgents ∨
      (runSession b ui agents true).result = SessionResult.noAgents) ∧
    (runSession b ui agents true).initialCalls = [] ∧
    (runSession b ui agents true).reviewCalls = [] ∧
    (runSession b ui agents true).reviseCalls = [] ∧
    (runSession b ui agents true).synthCalls = [] := by
  rcases agents with - | ⟨a, rest⟩
  · have he : runSession b ui [] true = emptyTrace SessionResult.noAgents := by
      simp [runSession, hui]
    rw [he]
    exact ⟨Or.inr rfl, rfl, rfl, rfl, rfl⟩
  · rw [runSession_deep b ui (a :: rest) hui (by simp), runDeepMode, if_pos hlen]
    exact ⟨Or.inl rfl, rfl, rfl, rfl, rfl⟩

/-- Claim C8 witness: the theorem applied to a single configured agent in
deep mode. -/
theorem c8_deep_precondition_witness :
    ((runSession bC8 "질문" ["openai"] true).result = SessionResult.insufficientAgents ∨
      (runSession bC8 "질문" ["openai"] true).result = SessionResult.noAgents) ∧
    (runSession bC8 "질문" ["openai"] true).initialCalls = [] ∧
    (runSession bC8 "질문" ["openai"] true).reviewCalls = [] ∧
    (runSession bC8 "질문" ["openai"] true).reviseCalls = [] ∧
    (runSession bC8 "질문" ["openai"] true).synthCalls = [] :=
  c8_deep_precondition bC8 "질문" ["openai"] (by decide) (by decide)

end ConsensusAI
